import Mathlib

/-!
Verification of the broker API integration layer of the alpha-ai repository.

The Lean definitions below are a shallow embedding of the Python sources:

* `app/backend/kis/auth.py`            (`AccessToken`, `KISAuthService`)
* `app/backend/kis/hashkey.py`         (`HashKeyService`)
* `app/backend/kis/overseas_orders.py` (`OverseasOrderApi`, `OrderResponse`, `Position`)
* `app/backend/kis/realtime.py`        (`RealtimeClient`)

Network I/O is made explicit: every operation that performs an HTTP request
or a WebSocket send takes the outcome of that external interaction as an
argument (an `HttpResult` value or a success oracle) and returns, besides
its result, the updated service state and a count/log of the external
interactions it performed.  Timestamps are modelled as integers (seconds),
`datetime.timedelta(minutes=5)` becoming the literal `300`.
-/

deriving instance DecidableEq for Except

namespace AlphaAI

/-! ## Token manager: app/backend/kis/auth.py -/

/-- Model `AccessToken` from auth.py: token string, token type, lifetime in
seconds, and absolute expiry instant (seconds). -/
structure AccessToken where
  access_token : String
  token_type : String
  expires_in : Int
  expires_at : Int
  deriving Repr, DecidableEq

/-- Property `AccessToken.is_expired`: the token counts as expired as soon as
`now >= expires_at - 5min` (a 300 second safety buffer). -/
def AccessToken.is_expired (t : AccessToken) (now : Int) : Bool :=
  decide (t.expires_at - 300 ≤ now)

/-- The mutable state of a `KISAuthService` instance: the in-memory token
cache `_current_token` and the persisted token cache file. -/
structure AuthState where
  current_token : Option AccessToken
  cache_file : Option AccessToken
  deriving Repr, DecidableEq

/-- Parsed JSON body of a response from the token endpoint `/oauth2/tokenP`:
each field is `none` when the key is absent from the response object. -/
structure TokenBody where
  access_token : Option String
  token_type : Option String
  expires_in : Option Int
  error_code : Option String
  deriving Repr, DecidableEq

/-- Outcome of one HTTP request: either a transport-level failure
(connection error / timeout, httpx.TransportError) or a response with a
status code and a parsed body. -/
inductive HttpResult (β : Type) where
  | transportError : HttpResult β
  | status : Nat → β → HttpResult β
  deriving Repr, DecidableEq

/-- Exceptions that `get_access_token` can raise. -/
inductive AuthError where
  | transport
  | httpStatus (code : Nat) (error_code : String)
  | valueError (msg : String)
  deriving Repr, DecidableEq

/-- Result of one `get_access_token` call: the returned token or raised
exception, the service state after the call, and the number of
token-issuance HTTP requests the call performed. -/
structure AuthCallResult where
  result : Except AuthError AccessToken
  state : AuthState
  requests : Nat
  deriving Repr, DecidableEq

/-- The token-issuance section of `get_access_token` (auth.py lines
183-250): one POST to `/oauth2/tokenP`; `raise_for_status` raises for
4xx/5xx; a success body must contain `access_token`; `expires_in` defaults
to 86400 and `token_type` to "Bearer"; `expires_at = now + expires_in`;
the new token replaces both the in-memory and the persisted cache.  On an
HTTP status error the body's `error_code` is inspected: `EGW00133` (rate
limit) is converted to a `ValueError`, anything else re-raises the
`HTTPStatusError`.  There is no retry loop in the source. -/
def issueToken (now : Int) (st : AuthState) (net : HttpResult TokenBody) : AuthCallResult :=
  match net with
  | .transportError => ⟨.error .transport, st, 1⟩
  | .status code body =>
    if code < 400 then
      match body.access_token with
      | none => ⟨.error (.valueError "Invalid token response"), st, 1⟩
      | some tk =>
        let ei := body.expires_in.getD 86400
        let tok : AccessToken :=
          ⟨tk, body.token_type.getD "Bearer", ei, now + ei⟩
        ⟨.ok tok, ⟨some tok, some tok⟩, 1⟩
    else
      if body.error_code.getD "" = "EGW00133" then
        ⟨.error (.valueError "KIS API rate limit"), st, 1⟩
      else
        ⟨.error (.httpStatus code (body.error_code.getD "")), st, 1⟩

/-- Method `KISAuthService.get_access_token` (auth.py lines 160-250).  The whole
body runs under `self._token_lock`; concurrent calls are therefore
serialized and each sees the state left by the previous one.  A cached,
unexpired token is returned with zero HTTP requests unless `force_refresh`
is set; otherwise the issuance section runs. -/
def get_access_token (now : Int) (force_refresh : Bool) (st : AuthState)
    (net : HttpResult TokenBody) : AuthCallResult :=
  match st.current_token with
  | some tok =>
    if !force_refresh && !(tok.is_expired now) then ⟨.ok tok, st, 0⟩
    else issueToken now st net
  | none => issueToken now st net

/-- Whether the service currently holds a cached token that is not expired
at `now` (the condition under which `get_access_token` is a pure cache
read). -/
def hasValidToken (st : AuthState) (now : Int) : Bool :=
  match st.current_token with
  | some t => !(t.is_expired now)
  | none => false

/-- Lock-serialized execution of `n` concurrent `get_access_token` calls
(`force_refresh = false`), all arriving at time `now`.  The mutual
exclusion lock makes the calls run one after another, each starting from
the state the previous call left; `net` is the outcome the token endpoint
would give to whichever call actually performs a request.  Returns every
caller's result, the final state, and the total number of issuance
requests. -/
def serializeGetToken (now : Int) (net : HttpResult TokenBody) :
    Nat → AuthState → List (Except AuthError AccessToken) × AuthState × Nat
  | 0, st => ([], st, 0)
  | n + 1, st =>
    let r := get_access_token now false st net
    let rest := serializeGetToken now net n r.state
    (r.result :: rest.1, rest.2.1, r.requests + rest.2.2)

/-- Result of `revoke_token`: returned boolean and state after the call. -/
structure RevokeResult where
  ok : Bool
  state : AuthState
  deriving Repr, DecidableEq

/-- Method `KISAuthService.revoke_token` (auth.py lines 262-298): resolves the
token to revoke (argument, else the in-memory token), returns `False`
without any request when there is none (or it is the empty string); then
POSTs to `/oauth2/revokeP`.  On success it sets `_current_token = None`
and returns `True`; on any exception it returns `False`.  The persisted
cache file is never touched. -/
def revoke_token (st : AuthState) (token : Option String)
    (net : HttpResult Unit) : RevokeResult :=
  let tok : Option String :=
    match token with
    | some t => some t
    | none => st.current_token.map (·.access_token)
  match tok with
  | none => ⟨false, st⟩
  | some t =>
    if t = "" then ⟨false, st⟩
    else
      match net with
      | .transportError => ⟨false, st⟩
      | .status code _ =>
        if code < 400 then ⟨true, { st with current_token := none }⟩
        else ⟨false, st⟩

/-! ### Auth lemmas -/

lemma get_access_token_cached (now : Int) (st : AuthState) (net : HttpResult TokenBody)
    (tok : AccessToken) (h1 : st.current_token = some tok)
    (h2 : tok.is_expired now = false) :
    get_access_token now false st net = ⟨.ok tok, st, 0⟩ := by
  unfold get_access_token
  rw [h1]
  simp [h2]

lemma get_access_token_issue (now : Int) (st : AuthState) (net : HttpResult TokenBody)
    (h : hasValidToken st now = false) :
    get_access_token now false st net = issueToken now st net := by
  unfold get_access_token
  cases hc : st.current_token with
  | none => rfl
  | some tok =>
    have hx : tok.is_expired now = true := by
      unfold hasValidToken at h
      rw [hc] at h
      simpa using h
    simp [hx]

lemma issueToken_requests (now : Int) (st : AuthState) (net : HttpResult TokenBody) :
    (issueToken now st net).requests = 1 := by
  rcases net with _ | ⟨code, body⟩
  · rfl
  · simp only [issueToken]
    by_cases hc : code < 400
    · rw [if_pos hc]
      rcases hb : body.access_token with _ | tk <;> rfl
    · rw [if_neg hc]
      by_cases he : body.error_code.getD "" = "EGW00133"
      · rw [if_pos he]
      · rw [if_neg he]

lemma issueToken_success (now : Int) (st : AuthState) (code : Nat) (body : TokenBody)
    (tk : String) (hc : code < 400) (hb : body.access_token = some tk) :
    issueToken now st (.status code body) =
      ⟨.ok ⟨tk, body.token_type.getD "Bearer", body.expires_in.getD 86400,
            now + body.expires_in.getD 86400⟩,
       ⟨some ⟨tk, body.token_type.getD "Bearer", body.expires_in.getD 86400,
             now + body.expires_in.getD 86400⟩,
        some ⟨tk, body.token_type.getD "Bearer", body.expires_in.getD 86400,
             now + body.expires_in.getD 86400⟩⟩, 1⟩ := by
  simp only [issueToken]
  rw [if_pos hc, hb]

lemma serialize_stable (now : Int) (net : HttpResult TokenBody) (tok : AccessToken)
    (n : Nat) (st : AuthState) (h1 : st.current_token = some tok)
    (h2 : tok.is_expired now = false) :
    serializeGetToken now net n st = (List.replicate n (.ok tok), st, 0) := by
  induction n with
  | zero => rfl
  | succ n ih =>
    simp only [serializeGetToken, get_access_token_cached now st net tok h1 h2]
    rw [ih]
    simp [List.replicate_succ]

/-! ### Claim theorems about the token manager -/

/-- C1: for a lock-serialized burst of `n+1` concurrent `get_access_token`
calls arriving at time `now` while no valid token is cached, exactly one
token-issuance HTTP request is made (total request count 1) and every
caller receives the same resulting `AccessToken`. -/
theorem token_single_flight (now : Int) (st : AuthState) (code : Nat) (body : TokenBody)
    (tk : String) (n : Nat)
    (hnv : hasValidToken st now = false)
    (hb : body.access_token = some tk)
    (hcode : code < 400)
    (hei : 300 < body.expires_in.getD 86400) :
    serializeGetToken now (.status code body) (n + 1) st =
      (List.replicate (n + 1)
        (.ok ⟨tk, body.token_type.getD "Bearer", body.expires_in.getD 86400,
              now + body.expires_in.getD 86400⟩),
       ⟨some ⟨tk, body.token_type.getD "Bearer", body.expires_in.getD 86400,
             now + body.expires_in.getD 86400⟩,
        some ⟨tk, body.token_type.getD "Bearer", body.expires_in.getD 86400,
             now + body.expires_in.getD 86400⟩⟩, 1) := by
  set ei := body.expires_in.getD 86400 with hei_def
  set tok : AccessToken := ⟨tk, body.token_type.getD "Bearer", ei, now + ei⟩ with htok
  have hfresh : tok.is_expired now = false := by
    simp only [AccessToken.is_expired, htok, decide_eq_false_iff_not, not_le]
    omega
  have hcall : get_access_token now false st (.status code body) =
      ⟨.ok tok, ⟨some tok, some tok⟩, 1⟩ := by
    rw [get_access_token_issue now st _ hnv]
    exact issueToken_success now st code body tk hcode hb
  simp only [serializeGetToken, hcall]
  rw [serialize_stable now _ tok n ⟨some tok, some tok⟩ rfl hfresh]
  simp [List.replicate_succ]

/-- Concrete token-endpoint body used by witnesses: a success body holding
only `access_token` (so `token_type` and `expires_in` take their
defaults). -/
def bodyW : TokenBody := ⟨some "tkn", none, none, none⟩

/-- Witness for C1: three concurrent calls on an empty cache yield one
request and three identical tokens. -/
theorem token_single_flight_witness :
    serializeGetToken 0 (.status 200 bodyW) 3 ⟨none, none⟩ =
      (List.replicate 3 (.ok ⟨"tkn", "Bearer", 86400, 86400⟩),
       ⟨some ⟨"tkn", "Bearer", 86400, 86400⟩, some ⟨"tkn", "Bearer", 86400, 86400⟩⟩, 1) :=
  token_single_flight 0 ⟨none, none⟩ 200 bodyW "tkn" 2 rfl rfl (by decide) (by decide)

/-- C2: `get_access_token` with `force_refresh = false` (i) returns the
cached token with zero network requests when it is unexpired, (ii) where
"unexpired at `now`" is exactly `now < expires_at - 5min`, (iii) performs
exactly one network request whenever no valid token is cached, and (iv) on
a successful issuance caches a token whose `expires_at` is the issuance
time plus `expires_in` (defaulting to 86400 when absent). -/
theorem get_access_token_cache_policy (now : Int) (st : AuthState) (net : HttpResult TokenBody) :
    (∀ tok, st.current_token = some tok → tok.is_expired now = false →
      get_access_token now false st net = ⟨.ok tok, st, 0⟩) ∧
    (∀ tok : AccessToken, tok.is_expired now = false ↔ now < tok.expires_at - 300) ∧
    (hasValidToken st now = false → (get_access_token now false st net).requests = 1) ∧
    (∀ code body tk, hasValidToken st now = false → net = .status code body → code < 400 →
      body.access_token = some tk →
      get_access_token now false st net =
        ⟨.ok ⟨tk, body.token_type.getD "Bearer", body.expires_in.getD 86400,
              now + body.expires_in.getD 86400⟩,
         ⟨some ⟨tk, body.token_type.getD "Bearer", body.expires_in.getD 86400,
               now + body.expires_in.getD 86400⟩,
          some ⟨tk, body.token_type.getD "Bearer", body.expires_in.getD 86400,
               now + body.expires_in.getD 86400⟩⟩, 1⟩) := by
  refine ⟨fun tok h1 h2 => get_access_token_cached now st net tok h1 h2, ?_, ?_, ?_⟩
  · intro tok
    simp only [AccessToken.is_expired, decide_eq_false_iff_not, not_le]
  · intro h
    rw [get_access_token_issue now st net h]
    exact issueToken_requests now st net
  · intro code body tk h hnet hc hb
    subst hnet
    rw [get_access_token_issue now st _ h]
    exact issueToken_success now st code body tk hc hb

/-- A concrete unexpired token (at time 0) used by witnesses. -/
def tokW : AccessToken := ⟨"cached", "Bearer", 86400, 86400⟩

/-- Witness for C2: at a state caching `tokW`, the call is a pure cache
read; at the empty state, it issues exactly one request and caches the
resulting token. -/
theorem get_access_token_cache_policy_witness :
    get_access_token 0 false ⟨some tokW, some tokW⟩ (.status 200 bodyW) =
      ⟨.ok tokW, ⟨some tokW, some tokW⟩, 0⟩ ∧
    (get_access_token 0 false ⟨none, none⟩ (.status 200 bodyW)).requests = 1 ∧
    get_access_token 0 false ⟨none, none⟩ (.status 200 bodyW) =
      ⟨.ok ⟨"tkn", "Bearer", 86400, 86400⟩,
       ⟨some ⟨"tkn", "Bearer", 86400, 86400⟩, some ⟨"tkn", "Bearer", 86400, 86400⟩⟩, 1⟩ := by
  have h1 := get_access_token_cache_policy 0 ⟨some tokW, some tokW⟩ (.status 200 bodyW)
  have h2 := get_access_token_cache_policy 0 (⟨none, none⟩ : AuthState) (.status 200 bodyW)
  exact ⟨h1.1 tokW rfl (by decide),
         h2.2.2.1 rfl,
         h2.2.2.2 200 bodyW "tkn" rfl rfl (by decide) rfl⟩

/-- C5 counterexample: the claim says token issuance retries network-layer
failures up to 3 attempts; in the source `get_access_token` has no retry
loop (the tenacity import is unused), so a single transport failure is
surfaced to the caller after exactly one issuance request. -/
theorem token_retry_counterexample :
    (get_access_token 0 false ⟨none, none⟩ .transportError).result = .error .transport ∧
    (get_access_token 0 false ⟨none, none⟩ .transportError).requests = 1 :=
  ⟨rfl, rfl⟩

/-- C5 amended: token issuance performs exactly one network request per
call (no retry); the broker rate-limit code `EGW00133` is surfaced as a
`ValueError` — a distinct error type from ordinary HTTP status failures,
which re-raise as `HTTPStatusError`. -/
theorem token_retry_amended (now : Int) (st : AuthState) (net : HttpResult TokenBody)
    (h : hasValidToken st now = false) :
    (get_access_token now false st net).requests = 1 ∧
    (∀ code body, net = .status code body → ¬code < 400 →
      body.error_code.getD "" = "EGW00133" →
      (get_access_token now false st net).result = .error (.valueError "KIS API rate limit")) ∧
    (∀ code body, net = .status code body → ¬code < 400 →
      body.error_code.getD "" ≠ "EGW00133" →
      (get_access_token now false st net).result =
        .error (.httpStatus code (body.error_code.getD ""))) := by
  rw [get_access_token_issue now st net h]
  refine ⟨issueToken_requests now st net, ?_, ?_⟩
  · intro code body hnet hc he
    subst hnet
    simp only [issueToken]
    rw [if_neg hc, if_pos he]
  · intro code body hnet hc he
    subst hnet
    simp only [issueToken]
    rw [if_neg hc, if_neg he]

/-- Witness for C5 amended: a 500 response carrying `EGW00133` makes one
request and raises the distinct rate-limit `ValueError`. -/
theorem token_retry_amended_witness :
    (get_access_token 0 false ⟨none, none⟩
      (.status 500 ⟨none, none, none, some "EGW00133"⟩)).requests = 1 ∧
    (get_access_token 0 false ⟨none, none⟩
      (.status 500 ⟨none, none, none, some "EGW00133"⟩)).result =
      .error (.valueError "KIS API rate limit") := by
  have h := token_retry_amended 0 ⟨none, none⟩
    (.status 500 ⟨none, none, none, some "EGW00133"⟩) rfl
  exact ⟨h.1, h.2.1 500 ⟨none, none, none, some "EGW00133"⟩ rfl (by decide) rfl⟩

/-! ### Claim theorems about revoke_token -/

lemma revoke_token_transport (st : AuthState) (token : Option String) :
    revoke_token st token .transportError = ⟨false, st⟩ := by
  unfold revoke_token
  rcases token with _ | t
  · rcases st.current_token with _ | ct
    · rfl
    · dsimp only [Option.map]
      split <;> rfl
  · dsimp only
    split <;> rfl

lemma revoke_token_shape (st : AuthState) (token : Option String) (net : HttpResult Unit) :
    revoke_token st token net = ⟨false, st⟩ ∨
    revoke_token st token net = ⟨true, { st with current_token := none }⟩ := by
  unfold revoke_token
  rcases token with _ | t
  · rcases st.current_token with _ | ct
    · exact Or.inl rfl
    · dsimp only [Option.map]
      split
      · exact Or.inl rfl
      · rcases net with _ | ⟨code, u⟩
        · exact Or.inl rfl
        · dsimp only
          split
          · exact Or.inr rfl
          · exact Or.inl rfl
  · dsimp only
    split
    · exact Or.inl rfl
    · rcases net with _ | ⟨code, u⟩
      · exact Or.inl rfl
      · dsimp only
        split
        · exact Or.inr rfl
        · exact Or.inl rfl

/-- C6 counterexample: the claim says both the in-memory and the persisted
cache are cleared regardless of network outcome.  In the source a
successful revoke clears only `_current_token` and leaves the cache file
untouched, and a failed revoke clears nothing. -/
theorem revoke_token_counterexample :
    (revoke_token ⟨some tokW, some tokW⟩ none (.status 200 ())).ok = true ∧
    (revoke_token ⟨some tokW, some tokW⟩ none (.status 200 ())).state.cache_file = some tokW ∧
    (revoke_token ⟨some tokW, some tokW⟩ none .transportError).ok = false ∧
    (revoke_token ⟨some tokW, some tokW⟩ none .transportError).state.current_token = some tokW := by
  refine ⟨?_, ?_, ?_, ?_⟩ <;> decide

/-- C6 amended: `revoke_token` never touches the persisted cache entry; it
clears the in-memory token exactly when it returns `true`; and a transport
failure of the revoke request yields `false` with the state unchanged. -/
theorem revoke_token_amended (st : AuthState) (token : Option String) (net : HttpResult Unit) :
    (revoke_token st token net).state.cache_file = st.cache_file ∧
    ((revoke_token st token net).ok = true →
      (revoke_token st token net).state.current_token = none) ∧
    (net = .transportError → revoke_token st token net = ⟨false, st⟩) := by
  refine ⟨?_, ?_, ?_⟩
  · rcases revoke_token_shape st token net with h | h <;> rw [h]
  · intro hok
    rcases revoke_token_shape st token net with h | h
    · rw [h] at hok
      simp at hok
    · rw [h]
  · intro hnet
    subst hnet
    exact revoke_token_transport st token

/-- Witness for C6 amended: a successful revoke clears the in-memory token
but leaves the cache file; a failed revoke leaves the full state. -/
theorem revoke_token_amended_witness :
    (revoke_token ⟨some tokW, some tokW⟩ none (.status 200 ())).state.current_token = none ∧
    (revoke_token ⟨some tokW, some tokW⟩ none (.status 200 ())).state.cache_file = some tokW ∧
    revoke_token ⟨some tokW, some tokW⟩ none .transportError = ⟨false, ⟨some tokW, some tokW⟩⟩ := by
  have h1 := revoke_token_amended ⟨some tokW, some tokW⟩ none (.status 200 ())
  have h2 := revoke_token_amended ⟨some tokW, some tokW⟩ none .transportError
  exact ⟨h1.2.1 (by decide), h1.1, h2.2.2 rfl⟩

/-! ## Request signer: app/backend/kis/hashkey.py

`HashKeyService.generate_hashkey` serializes the request body with
`json.dumps(data, separators=(',', ':'), ensure_ascii=False)` (keys in
insertion order, no whitespace), signs the UTF-8 bytes with
HMAC-SHA256 keyed by the app secret, and base64-encodes the digest.
The SHA-256 / HMAC / base64 / UTF-8 primitives of Python's `hashlib`,
`hmac` and `base64` modules are implemented below over byte lists
(`List Nat`), 32-bit words being naturals reduced mod `2^32`. -/

/-- Reduce to a 32-bit word. -/
def w32 (n : Nat) : Nat := n % 4294967296

/-- Rotate a 32-bit word right by `n`. -/
def rotr32 (n x : Nat) : Nat := w32 ((x >>> n) ||| (x <<< (32 - n)))

/-- SHA-256 small sigma 0. -/
def shaS0 (x : Nat) : Nat := (rotr32 7 x) ^^^ (rotr32 18 x) ^^^ (x >>> 3)

/-- SHA-256 small sigma 1. -/
def shaS1 (x : Nat) : Nat := (rotr32 17 x) ^^^ (rotr32 19 x) ^^^ (x >>> 10)

/-- SHA-256 big sigma 0. -/
def shaB0 (x : Nat) : Nat := (rotr32 2 x) ^^^ (rotr32 13 x) ^^^ (rotr32 22 x)

/-- SHA-256 big sigma 1. -/
def shaB1 (x : Nat) : Nat := (rotr32 6 x) ^^^ (rotr32 11 x) ^^^ (rotr32 25 x)

/-- SHA-256 round constants. -/
def sha256K : List Nat :=
  [1116352408, 1899447441, 3049323471, 3921009573, 961987163, 1508970993,
   2453635748, 2870763221, 3624381080, 310598401, 607225278, 1426881987,
   1925078388, 2162078206, 2614888103, 3248222580, 3835390401, 4022224774,
   264347078, 604807628, 770255983, 1249150122, 1555081692, 1996064986,
   2554220882, 2821834349, 2952996808, 3210313671, 3336571891, 3584528711,
   113926993, 338241895, 666307205, 773529912, 1294757372, 1396182291,
   1695183700, 1986661051, 2177026350, 2456956037, 2730485921, 2820302411,
   3259730800, 3345764771, 3516065817, 3600352804, 4094571909, 275423344,
   430227734, 506948616, 659060556, 883997877, 958139571, 1322822218,
   1537002063, 1747873779, 1955562222, 2024104815, 2227730452, 2361852424,
   2428436474, 2756734187, 3204031479, 3329325298]

/-- SHA-256 initial hash state. -/
def sha256H0 : List Nat :=
  [1779033703, 3144134277, 1013904242, 2773480762,
   1359893119, 2600822924, 528734635, 1541459225]

/-- The `k` big-endian bytes of `n`. -/
def beBytes : Nat → Nat → List Nat
  | 0, _ => []
  | k + 1, n => beBytes k (n / 256) ++ [n % 256]

/-- SHA-256 message padding: append `0x80`, zero bytes to 56 mod 64, then
the 64-bit big-endian bit length. -/
def sha256Pad (msg : List Nat) : List Nat :=
  msg ++ [128] ++ List.replicate ((119 - msg.length % 64) % 64) 0 ++ beBytes 8 (8 * msg.length)

/-- Big-endian bytes to 32-bit words. -/
def toWords32 : List Nat → List Nat
  | a :: b :: c :: d :: rest => (((a * 256 + b) * 256 + c) * 256 + d) :: toWords32 rest
  | _ => []

/-- Extend the 16-word block to the 64-word message schedule (runs with
`k = 48`). -/
def scheduleAux : Nat → Array Nat → Array Nat
  | 0, w => w
  | k + 1, w =>
    let i := w.size
    let x := w32 (shaS1 (w.getD (i - 2) 0) + w.getD (i - 7) 0 + shaS0 (w.getD (i - 15) 0) +
      w.getD (i - 16) 0)
    scheduleAux k (w.push x)

/-- One SHA-256 compression round on the 8-word working state. -/
def compressStep (st : List Nat) (k : Nat) (wi : Nat) : List Nat :=
  match st with
  | [a, b, c, d, e, f, g, h] =>
    let ch := (e &&& f) ^^^ ((e ^^^ 4294967295) &&& g)
    let t1 := w32 (h + shaB1 e + ch + k + wi)
    let maj := (a &&& b) ^^^ (a &&& c) ^^^ (b &&& c)
    let t2 := w32 (shaB0 a + maj)
    [w32 (t1 + t2), a, b, c, w32 (d + t1), e, f, g]
  | other => other

/-- Process one 16-word block. -/
def sha256Block (h : List Nat) (blockWords : List Nat) : List Nat :=
  let w := scheduleAux 48 (Array.mk blockWords)
  let fin := (sha256K.zip w.toList).foldl (fun s p => compressStep s p.1 p.2) h
  List.zipWith (fun x y => w32 (x + y)) h fin

/-- Split a word list into 16-word blocks. -/
def toBlocks : List Nat → List (List Nat)
  | w0 :: w1 :: w2 :: w3 :: w4 :: w5 :: w6 :: w7 :: w8 :: w9 :: w10 :: w11 :: w12 :: w13 :: w14 ::
      w15 :: rest =>
    [w0, w1, w2, w3, w4, w5, w6, w7, w8, w9, w10, w11, w12, w13, w14, w15] :: toBlocks rest
  | _ => []

/-- SHA-256 of a byte list, as the 32 digest bytes. -/
def sha256 (msg : List Nat) : List Nat :=
  ((toBlocks (toWords32 (sha256Pad msg))).foldl sha256Block sha256H0).foldr
    (fun wd acc => beBytes 4 wd ++ acc) []

/-- HMAC-SHA256 (`hmac.new(key, msg, hashlib.sha256).digest()`). -/
def hmacSha256 (key msg : List Nat) : List Nat :=
  let k0 := if 64 < key.length then sha256 key else key
  let kp := k0 ++ List.replicate (64 - k0.length) 0
  sha256 ((kp.map (· ^^^ 92)) ++ sha256 ((kp.map (· ^^^ 54)) ++ msg))

/-- UTF-8 encoding of one character. -/
def utf8Char (c : Char) : List Nat :=
  let n := c.toNat
  if n < 128 then [n]
  else if n < 2048 then [192 ||| (n >>> 6), 128 ||| (n &&& 63)]
  else if n < 65536 then
    [224 ||| (n >>> 12), 128 ||| ((n >>> 6) &&& 63), 128 ||| (n &&& 63)]
  else
    [240 ||| (n >>> 18), 128 ||| ((n >>> 12) &&& 63), 128 ||| ((n >>> 6) &&& 63), 128 ||| (n &&& 63)]

/-- UTF-8 encoding of a string (`str.encode('utf-8')`). -/
def utf8Encode (s : String) : List Nat := (s.data.map utf8Char).flatten

/-- Lower-case hexadecimal digit. -/
def hexDigit (n : Nat) : Char := if n < 10 then Char.ofNat (48 + n) else Char.ofNat (87 + n)

/-- A JSON primitive value of the request body dictionaries (the order
bodies built in overseas_orders.py use only strings; numbers are included
for generality of `Dict[str, Any]`). -/
inductive JVal where
  | str : String → JVal
  | int : Int → JVal
  deriving Repr, DecidableEq

/-- JSON string escaping as performed by `json.dumps` (with
`ensure_ascii=False`, so non-ASCII characters pass through). -/
def escChar (c : Char) : String :=
  if c = '"' then "\\\""
  else if c = '\\' then "\\\\"
  else if c = '\n' then "\\n"
  else if c = '\t' then "\\t"
  else if c = '\r' then "\\r"
  else if c.toNat = 8 then "\\b"
  else if c.toNat = 12 then "\\f"
  else if c.toNat < 32 then
    String.mk ['\\', 'u', '0', '0', hexDigit (c.toNat / 16), hexDigit (c.toNat % 16)]
  else String.singleton c

/-- A JSON string literal. -/
def jsonString (s : String) : String := "\"" ++ String.join (s.data.map escChar) ++ "\""

/-- A JSON primitive literal. -/
def jsonVal : JVal → String
  | .str s => jsonString s
  | .int n => toString n

/-- Serialization `json.dumps(data, separators=(',', ':'), ensure_ascii=False)` on an
insertion-ordered dictionary: keys in their given order, no whitespace. -/
def jsonDumps (d : List (String × JVal)) : String :=
  "\x7b" ++ String.intercalate "," (d.map (fun p => jsonString p.1 ++ ":" ++ jsonVal p.2)) ++ "\x7d"

/-- The base64 alphabet. -/
def base64Table : List Char :=
  "ABCDEFGHIJKLMNOPQRSTUVWXYZabcdefghijklmnopqrstuvwxyz0123456789+/".data

/-- Character of one 6-bit group. -/
def b64c (n : Nat) : Char := base64Table.getD n 'A'

/-- Encoding `base64.b64encode` of a byte list. -/
def base64Encode : List Nat → String
  | [] => ""
  | [a] => String.mk [b64c (a >>> 2), b64c ((a &&& 3) <<< 4), '=', '=']
  | [a, b] =>
    String.mk [b64c (a >>> 2), b64c (((a &&& 3) <<< 4) ||| (b >>> 4)), b64c ((b &&& 15) <<< 2), '=']
  | a :: b :: c :: rest =>
    String.mk [b64c (a >>> 2), b64c (((a &&& 3) <<< 4) ||| (b >>> 4)),
               b64c (((b &&& 15) <<< 2) ||| (c >>> 6)), b64c (c &&& 63)] ++ base64Encode rest

/-- Method `HashKeyService.generate_hashkey` (hashkey.py lines 36-69): canonical
JSON serialization, HMAC-SHA256 under the app secret, base64. -/
def generate_hashkey (app_secret : String) (data : List (String × JVal)) : String :=
  base64Encode (hmacSha256 (utf8Encode app_secret) (utf8Encode (jsonDumps data)))

/-- First required field missing from the payload, if any. -/
def firstMissing (required : List String) (d : List (String × JVal)) : Option String :=
  required.find? (fun f => (d.lookup f).isNone)

/-- Method `HashKeyService.sign_order` (hashkey.py lines 71-92): validates the
required order fields before signing; raises `ValueError` naming the first
missing field. -/
def sign_order (app_secret : String) (order_data : List (String × JVal)) : Except String String :=
  match firstMissing ["CANO", "ACNT_PRDT_CD", "PDNO"] order_data with
  | some f => .error ("Missing required field for order: " ++ f)
  | none => .ok (generate_hashkey app_secret order_data)

/-- Method `HashKeyService.sign_cancel` (hashkey.py lines 94-115). -/
def sign_cancel (app_secret : String) (cancel_data : List (String × JVal)) :
    Except String String :=
  match firstMissing ["CANO", "ACNT_PRDT_CD", "ORGN_ODNO"] cancel_data with
  | some f => .error ("Missing required field for cancel: " ++ f)
  | none => .ok (generate_hashkey app_secret cancel_data)

/-- Sanity check that the embedded SHA-256 is the real function: the FIPS
180-2 digest of the empty message. -/
theorem sha256_nil_vector :
    sha256 [] =
      [227, 176, 196, 66, 152, 252, 28, 20,
       154, 251, 244, 200, 153, 111, 185, 36,
       39, 174, 65, 228, 100, 155, 147, 76,
       164, 149, 153, 27, 120, 82, 184, 85] := by
  decide

/-- C9: `generate_hashkey` is deterministic — two invocations with
identical payload dictionaries and identical secrets produce the identical
signature, and that signature is the base64-encoded HMAC-SHA256 digest of
the canonical JSON serialization (insertion-ordered keys, `','`/`':'`
separators, no extra whitespace). -/
theorem generate_hashkey_deterministic (s₁ s₂ : String) (d₁ d₂ : List (String × JVal))
    (hs : s₁ = s₂) (hd : d₁ = d₂) :
    generate_hashkey s₁ d₁ = generate_hashkey s₂ d₂ ∧
    generate_hashkey s₁ d₁ =
      base64Encode (hmacSha256 (utf8Encode s₁) (utf8Encode (jsonDumps d₁))) := by
  subst hs
  subst hd
  exact ⟨rfl, rfl⟩

/-- Witness for C9 at a concrete payload and secret. -/
theorem generate_hashkey_deterministic_witness :
    generate_hashkey "mysecret" [("CANO", .str "12345678"), ("PDNO", .str "AAPL")] =
      generate_hashkey "mysecret" [("CANO", .str "12345678"), ("PDNO", .str "AAPL")] ∧
    generate_hashkey "mysecret" [("CANO", .str "12345678"), ("PDNO", .str "AAPL")] =
      base64Encode (hmacSha256 (utf8Encode "mysecret")
        (utf8Encode (jsonDumps [("CANO", .str "12345678"), ("PDNO", .str "AAPL")]))) :=
  generate_hashkey_deterministic "mysecret" "mysecret"
    [("CANO", .str "12345678"), ("PDNO", .str "AAPL")]
    [("CANO", .str "12345678"), ("PDNO", .str "AAPL")] rfl rfl

/-! ## Order gateway: app/backend/kis/overseas_orders.py

`place_order` / `cancel_order` / `get_positions` are modelled with the
outcome of each HTTP attempt supplied as an oracle (`nets i` is what the
network does on attempt `i`).  Header assembly (`tr_id` selection,
authorization header) does not influence the values the claims are about
and is kept as separate definitions.  Python `float` prices are modelled
as integers: only their decimal rendering enters the request body. -/

/-- Model `OrderResponse` (overseas_orders.py lines 35-54). -/
structure OrderResponse where
  rt_cd : String
  msg_cd : String
  msg1 : String
  odno : Option String
  ord_tmd : Option String
  deriving Repr, DecidableEq

/-- Property `OrderResponse.is_success`: success iff the result code equals the
broker's sentinel "0". -/
def OrderResponse.is_success (r : OrderResponse) : Bool := r.rt_cd == "0"

/-- Property `OrderResponse.error_message`. -/
def OrderResponse.error_message (r : OrderResponse) : String :=
  if r.is_success then "" else r.msg1

/-- Exceptions an order-gateway call can raise: transport failures
(httpx.ConnectError etc.), `HTTPStatusError` from `raise_for_status`, and
`ValueError`-like errors (signing validation, unparseable body). -/
inductive OrderError where
  | transport
  | httpStatus (code : Nat)
  | valueError (msg : String)
  deriving Repr, DecidableEq

/-- Account-number split from `OverseasOrderApi.__init__`:
`cano = parts[0]`, `acnt_prdt_cd = parts[1]` defaulting to "01". -/
def splitAccount (account_no : String) : String × String :=
  let parts := account_no.splitOn "-"
  (parts.getD 0 "", parts.getD 1 "01")

/-- Transaction id selected by side and sandbox/live mode in `place_order`. -/
def order_tr_id (use_sandbox : Bool) (side : String) : String :=
  if use_sandbox then (if side == "BUY" then "VTTT1002U" else "VTTT1001U")
  else (if side == "BUY" then "TTTT1002U" else "TTTT1001U")

/-- Transaction id used by `cancel_order`. -/
def cancel_tr_id (use_sandbox : Bool) : String :=
  if use_sandbox then "VTTT1004U" else "TTTT1004U"

/-- The order request body built by `place_order` (lines 159-168). -/
def order_body (cano acnt_prdt_cd symbol : String) (qty : Nat) (price : Option Int)
    (order_type : String) : List (String × JVal) :=
  [("CANO", .str cano), ("ACNT_PRDT_CD", .str acnt_prdt_cd), ("OVRS_EXCG_CD", .str "NASD"),
   ("PDNO", .str symbol), ("ORD_QTY", .str (toString qty)),
   ("OVRS_ORD_UNPR", .str (match price with
     | some p => if p = 0 then "0" else toString p
     | none => "0")),
   ("ORD_SVR_DVSN_CD", .str "0"), ("ORD_DVSN", .str order_type)]

/-- One attempt of `place_order` (lines 154-225): build the body, sign it
(a validation failure raises), POST; `raise_for_status` raises for
4xx/5xx; an HTTP-success response parses into an `OrderResponse` which is
returned whatever its `rt_cd` is (`none` models a body that fails JSON
decoding / pydantic validation, which raises). -/
def place_order_attempt (cano acnt_prdt_cd app_secret symbol : String) (qty : Nat)
    (price : Option Int) (order_type : String)
    (net : HttpResult (Option OrderResponse)) : Except OrderError OrderResponse :=
  match sign_order app_secret (order_body cano acnt_prdt_cd symbol qty price order_type) with
  | .error e => .error (.valueError e)
  | .ok _hashkey =>
    match net with
    | .transportError => .error .transport
    | .status code body =>
      if code < 400 then
        match body with
        | some r => .ok r
        | none => .error (.valueError "invalid response body")
      else .error (.httpStatus code)

/-- The cancel request body built by `cancel_order` (lines 248-256). -/
def cancel_body (cano acnt_prdt_cd symbol order_id : String) (qty : Nat) :
    List (String × JVal) :=
  [("CANO", .str cano), ("ACNT_PRDT_CD", .str acnt_prdt_cd), ("OVRS_EXCG_CD", .str "NASD"),
   ("PDNO", .str symbol), ("ORGN_ODNO", .str order_id), ("RVSE_CNCL_DVSN_CD", .str "02"),
   ("ORD_QTY", .str (toString qty))]

/-- One attempt of `cancel_order` (lines 227-285), same response handling
as `place_order`. -/
def cancel_order_attempt (cano acnt_prdt_cd app_secret order_id symbol : String) (qty : Nat)
    (net : HttpResult (Option OrderResponse)) : Except OrderError OrderResponse :=
  match sign_cancel app_secret (cancel_body cano acnt_prdt_cd symbol order_id qty) with
  | .error e => .error (.valueError e)
  | .ok _hashkey =>
    match net with
    | .transportError => .error .transport
    | .status code body =>
      if code < 400 then
        match body with
        | some r => .ok r
        | none => .error (.valueError "invalid response body")
      else .error (.httpStatus code)

/-- The tenacity `@retry(stop=stop_after_attempt(n), wait=...)` driver with
its default retry predicate, which retries on EVERY raised exception
(`place_order` passes no `retry=` filter).  `fuel` is the number of
attempts still allowed; the pair returned is the final result (tenacity
wraps the last error in a `RetryError`; the wrapped error is returned
here) together with the number of attempts actually executed. -/
def retryRun {α : Type} (attempt : Nat → Except OrderError α) :
    Nat → Nat → Except OrderError α × Nat
  | 0, i => (attempt i, 1)
  | 1, i => (attempt i, 1)
  | fuel + 2, i =>
    match attempt i with
    | .ok a => (.ok a, 1)
    | .error _ =>
      let r := retryRun attempt (fuel + 1) (i + 1)
      (r.1, r.2 + 1)

/-- Backoff `tenacity.wait_exponential(multiplier=1, min=2, max=10)`: the delay
slept after the `attempt`-th attempt (attempts numbered from 1). -/
def wait_exponential (multiplier mn mx attempt : Nat) : Nat :=
  max mn (min (multiplier * 2 ^ attempt) mx)

/-- Method `OverseasOrderApi.place_order`: decorated with
`@retry(stop=stop_after_attempt(3), wait=wait_exponential(...))`. -/
def place_order (cano acnt_prdt_cd app_secret symbol : String) (qty : Nat)
    (price : Option Int) (order_type : String)
    (nets : Nat → HttpResult (Option OrderResponse)) : Except OrderError OrderResponse × Nat :=
  retryRun
    (fun i => place_order_attempt cano acnt_prdt_cd app_secret symbol qty price order_type (nets i))
    3 0

/-- Method `OverseasOrderApi.cancel_order`: carries NO retry decorator in the
source — a single attempt whose outcome is returned directly. -/
def cancel_order (cano acnt_prdt_cd app_secret order_id symbol : String) (qty : Nat)
    (nets : Nat → HttpResult (Option OrderResponse)) : Except OrderError OrderResponse × Nat :=
  (cancel_order_attempt cano acnt_prdt_cd app_secret order_id symbol qty (nets 0), 1)

/-- Spec-side classifier (spec section 7 taxonomy): an error is
transport-level when it is a connection failure or a 5xx HTTP status;
`ValueError`-like errors and 4xx are not transport-level. -/
def isTransportError : OrderError → Bool
  | .transport => true
  | .httpStatus code => decide (500 ≤ code)
  | .valueError _ => false

/-! ### Claim theorems about place_order / cancel_order -/

lemma place_order_attempt_eq (cano acnt_prdt_cd app_secret symbol : String) (qty : Nat)
    (price : Option Int) (order_type : String) (net : HttpResult (Option OrderResponse)) :
    place_order_attempt cano acnt_prdt_cd app_secret symbol qty price order_type net =
      (match net with
       | .transportError => .error .transport
       | .status code body =>
         if code < 400 then
           match body with
           | some r => .ok r
           | none => .error (.valueError "invalid response body")
         else .error (.httpStatus code)) := rfl

/-- C3 amended: an HTTP-200 broker response whose body parses into an
`OrderResponse` is returned as-is — never raised — whatever its result
code, and `is_success` holds iff `rt_cd = "0"`; but exceptions do NOT
propagate only on transport-level failure: besides a transport error, any
4xx/5xx status raises `HTTPStatusError` (a 4xx is not transport-level by
the spec's own taxonomy) and an unparseable HTTP-success body raises a
`ValueError`, and both propagate to the caller just as transport failures
do. -/
theorem place_order_success_sentinel (cano acnt_prdt_cd app_secret symbol : String)
    (qty : Nat) (price : Option Int) (order_type : String) (r : OrderResponse) :
    place_order_attempt cano acnt_prdt_cd app_secret symbol qty price order_type
      (.status 200 (some r)) = .ok r ∧
    (r.is_success = true ↔ r.rt_cd = "0") ∧
    place_order_attempt cano acnt_prdt_cd app_secret symbol qty price order_type
      .transportError = .error .transport ∧
    (∀ code body, ¬code < 400 →
      place_order_attempt cano acnt_prdt_cd app_secret symbol qty price order_type
        (.status code body) = .error (.httpStatus code)) ∧
    (∀ code, code < 400 →
      place_order_attempt cano acnt_prdt_cd app_secret symbol qty price order_type
        (.status code none) = .error (.valueError "invalid response body")) := by
  refine ⟨rfl, ?_, rfl, ?_, ?_⟩
  · simp [OrderResponse.is_success]
  · intro code body hc
    rw [place_order_attempt_eq]
    dsimp only
    rw [if_neg hc]
  · intro code hc
    rw [place_order_attempt_eq]
    dsimp only
    rw [if_pos hc]

/-- A successful broker order response used by concrete runs. -/
def respW : OrderResponse := ⟨"0", "APBK0013", "ok", some "0030087262", some "101122"⟩

/-- A network oracle whose first attempt yields an HTTP 200 with an
unparseable body (a non-transport `ValueError`) and whose second attempt
succeeds. -/
def netsCE : Nat → HttpResult (Option OrderResponse) :=
  fun i => if i = 0 then .status 200 none else .status 200 (some respW)

/-- C3 counterexample: the claim says exceptions propagate only on
transport-level failure; here an HTTP 400 response — not transport-level
by the spec's own taxonomy (connection errors, 5xx) — makes every attempt
raise `HTTPStatusError`, which `place_order` propagates to the caller
after its 3 attempts. -/
theorem order_exception_counterexample :
    place_order "12345678" "01" "secret" "AAPL" 1 none "00"
      (fun _ => .status 400 (some respW)) = (.error (.httpStatus 400), 3) ∧
    isTransportError (.httpStatus 400) = false :=
  ⟨rfl, rfl⟩

/-- Witness for C3 amended: a 400 response raises `HTTPStatusError`, an
unparseable 200 body raises `ValueError`, and a parsed 200 body is
returned. -/
theorem place_order_success_sentinel_witness :
    place_order_attempt "12345678" "01" "secret" "AAPL" 1 none "00"
      (.status 400 (some respW)) = .error (.httpStatus 400) ∧
    place_order_attempt "12345678" "01" "secret" "AAPL" 1 none "00"
      (.status 200 none) = .error (.valueError "invalid response body") ∧
    place_order_attempt "12345678" "01" "secret" "AAPL" 1 none "00"
      (.status 200 (some respW)) = .ok respW := by
  have h := place_order_success_sentinel "12345678" "01" "secret" "AAPL" 1 none "00" respW
  exact ⟨h.2.2.2.1 400 (some respW) (by decide), h.2.2.2.2 200 (by decide), h.1⟩

/-- C4 counterexample: the first attempt raises a `ValueError` (not a
transport-level failure by the spec's own taxonomy), yet `place_order`
retries it and succeeds on attempt 2 — the claim says non-transport errors
are never retried; and `cancel_order`, whose source has no retry
decorator, gives up after 1 attempt on a genuine transport failure — the
claim says it follows the same 3-attempt policy. -/
theorem order_retry_counterexample :
    place_order "12345678" "01" "secret" "AAPL" 1 none "00" netsCE = (.ok respW, 2) ∧
    place_order_attempt "12345678" "01" "secret" "AAPL" 1 none "00" (netsCE 0) =
      .error (.valueError "invalid response body") ∧
    isTransportError (.valueError "invalid response body") = false ∧
    cancel_order "12345678" "01" "secret" "0030087262" "AAPL" 1 (fun _ => .transportError) =
      (.error .transport, 1) :=
  ⟨rfl, rfl, rfl, rfl⟩

lemma retryRun_retries {α : Type} (f : Nat → Except OrderError α) (fuel i : Nat)
    (e : OrderError) (he : f i = .error e) :
    retryRun f (fuel + 2) i =
      ((retryRun f (fuel + 1) (i + 1)).1, (retryRun f (fuel + 1) (i + 1)).2 + 1) := by
  rw [retryRun, he]

lemma retryRun_fuel1_count {α : Type} (f : Nat → Except OrderError α) (i : Nat) :
    (retryRun f 1 i).2 = 1 := rfl

lemma retryRun_fuel2_count {α : Type} (f : Nat → Except OrderError α) (i : Nat) :
    (retryRun f 2 i).2 ≤ 2 := by
  show (retryRun f (0 + 2) i).2 ≤ 2
  rw [retryRun]
  cases hf : f i with
  | ok a => simp
  | error e => simp [retryRun_fuel1_count]

lemma retryRun_fuel3_count {α : Type} (f : Nat → Except OrderError α) (i : Nat) :
    (retryRun f 3 i).2 ≤ 3 := by
  show (retryRun f (1 + 2) i).2 ≤ 3
  rw [retryRun]
  cases hf : f i with
  | ok a => simp
  | error e =>
    have h2 : (retryRun f (1 + 1) (i + 1)).2 ≤ 2 := retryRun_fuel2_count f (i + 1)
    simp only []
    omega

/-- C4 amended: `place_order` retries after ANY raised exception —
transport-level or not — making at most 3 attempts (tenacity's default
retry predicate has no exception filter), with `wait_exponential` backoff
delays 2s then 4s; `cancel_order` performs no retries at all: exactly one
attempt whose outcome is returned. -/
theorem order_retry_amended (cano acnt_prdt_cd app_secret symbol : String) (qty : Nat)
    (price : Option Int) (order_type : String)
    (nets : Nat → HttpResult (Option OrderResponse)) :
    (∀ e, place_order_attempt cano acnt_prdt_cd app_secret symbol qty price order_type
        (nets 0) = .error e →
      place_order cano acnt_prdt_cd app_secret symbol qty price order_type nets =
        ((retryRun (fun i => place_order_attempt cano acnt_prdt_cd app_secret symbol qty price
            order_type (nets i)) 2 1).1,
         (retryRun (fun i => place_order_attempt cano acnt_prdt_cd app_secret symbol qty price
            order_type (nets i)) 2 1).2 + 1)) ∧
    (place_order cano acnt_prdt_cd app_secret symbol qty price order_type nets).2 ≤ 3 ∧
    (wait_exponential 1 2 10 1 = 2 ∧ wait_exponential 1 2 10 2 = 4) ∧
    (∀ order_id, cancel_order cano acnt_prdt_cd app_secret order_id symbol qty nets =
      (cancel_order_attempt cano acnt_prdt_cd app_secret order_id symbol qty (nets 0), 1)) := by
  refine ⟨?_, ?_, ⟨rfl, rfl⟩, fun order_id => rfl⟩
  · intro e he
    exact retryRun_retries _ 1 0 e he
  · exact retryRun_fuel3_count _ 0

/-- Witness for C4 amended at the concrete oracle `netsCE`. -/
theorem order_retry_amended_witness :
    place_order "12345678" "01" "secret" "AAPL" 1 none "00" netsCE =
      ((retryRun (fun i => place_order_attempt "12345678" "01" "secret" "AAPL" 1 none "00"
          (netsCE i)) 2 1).1,
       (retryRun (fun i => place_order_attempt "12345678" "01" "secret" "AAPL" 1 none "00"
          (netsCE i)) 2 1).2 + 1) ∧
    (place_order "12345678" "01" "secret" "AAPL" 1 none "00" netsCE).2 ≤ 3 := by
  have h := order_retry_amended "12345678" "01" "secret" "AAPL" 1 none "00" netsCE
  exact ⟨h.1 (.valueError "invalid response body") rfl, h.2.1⟩

/-! ### get_positions: zero-quantity filtering and malformed rows -/

/-- One raw row of the `output1` array of the balance-inquiry response.
Fields are the raw string values (broker numerics arrive as strings);
`none` means the key is absent. -/
structure PositionRow where
  ovrs_cblc_qty : Option String
  ovrs_pdno : Option String
  ovrs_item_name : Option String
  pchs_avg_pric : Option String
  now_pric2 : Option String
  ovrs_stck_evlu_amt : Option String
  frcr_evlu_pfls_amt : Option String
  evlu_pfls_rt : Option String
  deriving Repr, DecidableEq

/-- Model `Position` (overseas_orders.py lines 57-67).  `Decimal` fields
are modelled by their validated literal strings: `get_positions` never
computes with them, it only converts and stores them. -/
structure Position where
  symbol : String
  name : String
  quantity : Int
  avg_price : String
  current_price : String
  eval_amount : String
  profit_loss : String
  profit_loss_rate : String
  deriving Repr, DecidableEq

/-- Numeric value of a digit list. -/
def digitsVal (ds : List Char) : Nat := ds.foldl (fun a c => a * 10 + (c.toNat - 48)) 0

/-- Python `int(str)`: optional sign followed by digits; anything else
raises `ValueError` (`none`). -/
def parseInt (s : String) : Option Int :=
  match s.data with
  | [] => none
  | '-' :: ds =>
    if !ds.isEmpty && ds.all (·.isDigit) then some (-(digitsVal ds : Int)) else none
  | '+' :: ds =>
    if !ds.isEmpty && ds.all (·.isDigit) then some (digitsVal ds) else none
  | ds => if ds.all (·.isDigit) then some (digitsVal ds) else none

/-- Python `Decimal(str)` acceptance for the plain decimal literals the
broker sends: optional sign, digits with at most one point, at least one
digit; anything else raises `InvalidOperation`. -/
def decimalOk (s : String) : Bool :=
  let t := match s.data with
    | '-' :: r => r
    | '+' :: r => r
    | r => r
  !(t.filter (· != '.')).isEmpty && decide (t.count '.' ≤ 1) &&
    (t.filter (· != '.')).all (·.isDigit)

/-- Access `item["key"]`: raises `KeyError` when absent. -/
def reqField (o : Option String) : Except String String :=
  o.elim (.error "KeyError") .ok

/-- Conversion `Decimal(item["key"])`: `KeyError` when absent, `InvalidOperation`
when not a decimal literal. -/
def reqDecimal (o : Option String) : Except String String :=
  match o with
  | none => .error "KeyError"
  | some s => if decimalOk s then .ok s else .error "InvalidOperation"

/-- Conversion `int(item.get("ovrs_cblc_qty", 0))`: missing key defaults to 0, an
unparseable value raises. -/
def qtyResult (row : PositionRow) : Except String Int :=
  match row.ovrs_cblc_qty with
  | none => .ok 0
  | some s =>
    match parseInt s with
    | some n => .ok n
    | none => .error "invalid literal for int"

/-- Processing of one row of `output1` by `get_positions` (lines 324-337):
rows with non-positive (or missing) quantity are filtered out
(`.ok none`); a kept row reads every field, any failure raising; there is
no per-row exception handling in the source, so an error here is the
call's error. -/
def parse_position_row (row : PositionRow) : Except String (Option Position) :=
  match qtyResult row with
  | .error e => .error e
  | .ok q =>
    if 0 < q then
      match reqField row.ovrs_pdno with
      | .error e => .error e
      | .ok sym =>
        match reqField row.ovrs_item_name with
        | .error e => .error e
        | .ok nm =>
          match reqDecimal row.pchs_avg_pric with
          | .error e => .error e
          | .ok ap =>
            match reqDecimal row.now_pric2 with
            | .error e => .error e
            | .ok cp =>
              match reqDecimal row.ovrs_stck_evlu_amt with
              | .error e => .error e
              | .ok ea =>
                match reqDecimal row.frcr_evlu_pfls_amt with
                | .error e => .error e
                | .ok pl =>
                  match reqDecimal row.evlu_pfls_rt with
                  | .error e => .error e
                  | .ok plr => .ok (some ⟨sym, nm, q, ap, cp, ea, pl, plr⟩)
    else .ok none

/-- The row loop of `get_positions`: rows processed in order, the list of
kept positions returned; the first raising row aborts the whole call. -/
def get_positions_parse : List PositionRow → Except String (List Position)
  | [] => .ok []
  | r :: rs =>
    match parse_position_row r with
    | .error e => .error e
    | .ok none => get_positions_parse rs
    | .ok (some p) =>
      match get_positions_parse rs with
      | .error e => .error e
      | .ok ps => .ok (p :: ps)

/-- Method `OverseasOrderApi.get_positions` (lines 287-344): one GET; a missing
`output1` section yields the empty list; otherwise the row loop runs. -/
def get_positions (net : HttpResult (Option (List PositionRow))) :
    Except String (List Position) :=
  match net with
  | .transportError => .error "transport error"
  | .status code body =>
    if code < 400 then
      match body with
      | none => .ok []
      | some rows => get_positions_parse rows
    else .error "HTTPStatusError"

/-- A well-formed positive-quantity row. -/
def goodRow : PositionRow :=
  ⟨some "1", some "AAPL", some "Apple Inc", some "100.00", some "101.50", some "101.50",
   some "1.50", some "1.50"⟩

/-- A malformed row: its quantity field does not parse as an integer. -/
def badRow : PositionRow :=
  ⟨some "abc", some "TSLA", some "Tesla", some "5.0", some "5.0", some "5.0", some "0", some "0"⟩

/-- A well-formed zero-quantity row. -/
def zeroRow : PositionRow :=
  ⟨some "0", some "MSFT", some "Microsoft", some "10.0", some "10.0", some "0", some "0",
   some "0"⟩

/-- The position built from `goodRow`. -/
def applePos : Position :=
  ⟨"AAPL", "Apple Inc", 1, "100.00", "101.50", "101.50", "1.50", "1.50"⟩

/-- C7 counterexample: the claim says a single malformed row is logged and
skipped while the call still succeeds with the remaining rows; in the
source the row loop has no per-row exception handling, so one malformed
row makes the whole `get_positions` call raise instead of returning the
well-formed rows. -/
theorem get_positions_counterexample :
    get_positions (.status 200 (some [goodRow, badRow])) = .error "invalid literal for int" :=
  rfl

lemma parse_row_some_pos (row : PositionRow) (p : Position)
    (h : parse_position_row row = .ok (some p)) : 0 < p.quantity := by
  unfold parse_position_row at h
  cases hq : qtyResult row with
  | error e => rw [hq] at h; cases h
  | ok q =>
    rw [hq] at h
    dsimp only at h
    by_cases h0 : 0 < q
    · rw [if_pos h0] at h
      cases h1 : reqField row.ovrs_pdno with
      | error e => rw [h1] at h; cases h
      | ok sym =>
        rw [h1] at h
        dsimp only at h
        cases h2 : reqField row.ovrs_item_name with
        | error e => rw [h2] at h; cases h
        | ok nm =>
          rw [h2] at h
          dsimp only at h
          cases h3 : reqDecimal row.pchs_avg_pric with
          | error e => rw [h3] at h; cases h
          | ok ap =>
            rw [h3] at h
            dsimp only at h
            cases h4 : reqDecimal row.now_pric2 with
            | error e => rw [h4] at h; cases h
            | ok cp =>
              rw [h4] at h
              dsimp only at h
              cases h5 : reqDecimal row.ovrs_stck_evlu_amt with
              | error e => rw [h5] at h; cases h
              | ok ea =>
                rw [h5] at h
                dsimp only at h
                cases h6 : reqDecimal row.frcr_evlu_pfls_amt with
                | error e => rw [h6] at h; cases h
                | ok pl =>
                  rw [h6] at h
                  dsimp only at h
                  cases h7 : reqDecimal row.evlu_pfls_rt with
                  | error e => rw [h7] at h; cases h
                  | ok plr =>
                    rw [h7] at h
                    dsimp only at h
                    cases h
                    simpa using h0
    · rw [if_neg h0] at h
      cases h

/-- C7 amended: rows whose quantity is missing or non-positive are
excluded (every returned position has positive quantity, and a
zero-quantity row is skipped without effect); but a malformed row anywhere
in `output1` makes the entire call fail instead of being skipped. -/
theorem get_positions_amended :
    (∀ rows ps, get_positions_parse rows = .ok ps → ∀ p ∈ ps, 0 < p.quantity) ∧
    (∀ rs₁ r rs₂, (parse_position_row r).isOk = false →
      (get_positions_parse (rs₁ ++ r :: rs₂)).isOk = false) ∧
    (∀ r rs, parse_position_row r = .ok none →
      get_positions_parse (r :: rs) = get_positions_parse rs) ∧
    (∀ row s q, row.ovrs_cblc_qty = some s → parseInt s = some q → q ≤ 0 →
      parse_position_row row = .ok none) := by
  refine ⟨?_, ?_, ?_, ?_⟩
  · intro rows
    induction rows with
    | nil =>
      intro ps h p hp
      simp only [get_positions_parse] at h
      cases h
      simp at hp
    | cons r rs ih =>
      intro ps h p hp
      simp only [get_positions_parse] at h
      cases hr : parse_position_row r with
      | error e => rw [hr] at h; cases h
      | ok o =>
        cases o with
        | none => rw [hr] at h; exact ih ps h p hp
        | some p0 =>
          rw [hr] at h
          cases hrec : get_positions_parse rs with
          | error e => rw [hrec] at h; cases h
          | ok ps0 =>
            rw [hrec] at h
            cases h
            rcases List.mem_cons.mp hp with hp0 | hps
            · subst hp0; exact parse_row_some_pos r p hr
            · exact ih ps0 hrec p hps
  · intro rs₁
    induction rs₁ with
    | nil =>
      intro r rs₂ hbad
      simp only [List.nil_append, get_positions_parse]
      cases hr : parse_position_row r with
      | error e => rfl
      | ok o => rw [hr] at hbad; simp [Except.isOk, Except.toBool] at hbad
    | cons r0 rs ih =>
      intro r rs₂ hbad
      simp only [List.cons_append, get_positions_parse]
      cases hr0 : parse_position_row r0 with
      | error e => rfl
      | ok o =>
        cases o with
        | none => exact ih r rs₂ hbad
        | some p =>
          have hrec := ih r rs₂ hbad
          cases hrec2 : get_positions_parse (rs ++ r :: rs₂) with
          | error e => rfl
          | ok ps => rw [hrec2] at hrec; simp [Except.isOk, Except.toBool] at hrec
  · intro r rs h
    simp only [get_positions_parse, h]
  · intro row s q hf hp hq
    have hqr : qtyResult row = .ok q := by
      simp only [qtyResult, hf]
      rw [hp]
    simp only [parse_position_row, hqr]
    rw [if_neg (by omega)]

/-- Witness for C7 amended: the good row alone succeeds with a
positive-quantity position; inserting the malformed row after it makes the
call fail; the zero-quantity row is skipped. -/
theorem get_positions_amended_witness :
    (0 : Int) < applePos.quantity ∧
    (get_positions_parse [goodRow, badRow]).isOk = false ∧
    get_positions_parse [zeroRow] = get_positions_parse [] ∧
    parse_position_row zeroRow = .ok none := by
  have h := get_positions_amended
  have hzero : parse_position_row zeroRow = .ok none :=
    h.2.2.2 zeroRow "0" 0 rfl rfl (by decide)
  exact ⟨h.1 [goodRow] [applePos] rfl applePos (by simp),
         h.2.1 [goodRow] badRow [] rfl,
         h.2.2.1 zeroRow [] hzero,
         hzero⟩

/-! ## Realtime feed: app/backend/kis/realtime.py

`RealtimeClient` state: `_connected`, `_running` and the subscription set
`_subscriptions` (a set of "data_type:symbol" keys; modelled as a
duplicate-free insertion list).  WebSocket sends are modelled by a success
oracle `sendOk` (the i-th send of the call raises iff `sendOk i = false`),
and `connect()` outcomes during reconnection by `connectOk`. -/

/-- State of a `RealtimeClient`. -/
structure RtState where
  connected : Bool
  running : Bool
  subscriptions : List String
  deriving Repr, DecidableEq

/-- Python `set.add`. -/
def addSub (l : List String) (k : String) : List String :=
  if k ∈ l then l else l ++ [k]

/-- Result of one `subscribe` call: returned boolean, state after the
call, and the subscribe control messages actually sent
(one `(data_type, symbol)` pair per successful send). -/
structure SubResult where
  ok : Bool
  state : RtState
  sent : List (String × String)
  deriving Repr, DecidableEq

/-- The per-data-type loop of `subscribe` (realtime.py lines 180-211),
run under `_subscription_lock`: for each data type, send the subscribe
message then add the key to the set; a send failure logs and returns
`False` immediately — entries added for earlier data types stay in the
set (no rollback). -/
def subscribeLoop (symbol : String) (sendOk : Nat → Bool) :
    List String → Nat → RtState → List (String × String) → SubResult
  | [], _, st, sent => ⟨true, st, sent⟩
  | dt :: rest, i, st, sent =>
    if sendOk i then
      subscribeLoop symbol sendOk rest (i + 1)
        { st with subscriptions := addSub st.subscriptions (dt ++ ":" ++ symbol) }
        (sent ++ [(dt, symbol)])
    else ⟨false, st, sent⟩

/-- Method `RealtimeClient.subscribe` (lines 162-212): returns `False` without
sending anything when not connected; the default data-type list is the
quote and trade ids. -/
def subscribe (st : RtState) (symbol : String) (data_types : Option (List String))
    (sendOk : Nat → Bool) : SubResult :=
  if st.connected = false then ⟨false, st, []⟩
  else subscribeLoop symbol sendOk (data_types.getD ["H0STCNT0", "H0STCNI0"]) 0 st []

/-- Split a character list at every colon (`str.split(":")`). -/
def splitOnColon : List Char → List (List Char)
  | [] => [[]]
  | c :: rest =>
    match splitOnColon rest with
    | [] => [[]]
    | g :: gs => if c = ':' then [] :: g :: gs else (c :: g) :: gs

/-- Unpacking `data_type, symbol = subscription.split(":")` in `_handle_reconnect`:
the exactly-two unpack succeeds on the well-formed keys the client builds
(`data_type ++ ":" ++ symbol`). -/
def splitKey (s : String) : String × String :=
  match (splitOnColon s.data).map String.mk with
  | [dt, sym] => (dt, sym)
  | _ => ("", "")

/-- The subscription-replay loop of `_handle_reconnect` (lines 416-419):
for every entry of the subscription-set snapshot, re-send a subscribe
message via `subscribe` (whose return value the source ignores).  Returns
the final state and all messages sent. -/
def replayLoop (sendOk : Nat → Bool) :
    List String → Nat → RtState → List (String × String) → RtState × List (String × String)
  | [], _, st, acc => (st, acc)
  | key :: rest, i, st, acc =>
    let p := splitKey key
    let r := subscribe st p.2 (some [p.1]) (fun j => sendOk (i + j))
    replayLoop sendOk rest (i + 1) r.state (acc ++ r.sent)

/-- Result of `_handle_reconnect`: final state, number of `connect()`
attempts made, the sleep delays before each attempt, the subscribe
messages re-sent after a successful reconnect, and the `on_error`
invocations. -/
structure ReconnectResult where
  state : RtState
  attempts : Nat
  delays : List Nat
  resent : List (String × String)
  errors : List String
  deriving Repr, DecidableEq

/-- The bounded retry loop of `_handle_reconnect` (lines 408-426):
`max_retries = 5`, `retry_delay = 5`; before attempt number `attempt`
(0-based) it sleeps `5 * (attempt + 1)` seconds; `connect()` success sets
`_connected`/`_running` and triggers the subscription replay, after which
the procedure returns; failure sets `_connected = False` and continues;
when the fuel is exhausted the error callback fires with the terminal
message and the procedure returns — no further attempts are made. -/
def reconnectLoop (connectOk : Nat → Bool) (sendOk : Nat → Bool) :
    Nat → Nat → RtState → ReconnectResult
  | 0, _, st => ⟨st, 0, [], [], ["Connection lost and unable to reconnect"]⟩
  | fuel + 1, attempt, st =>
    let d := 5 * (attempt + 1)
    if connectOk attempt then
      let st1 : RtState := { st with connected := true, running := true }
      let rep := replayLoop sendOk st1.subscriptions 0 st1 []
      ⟨rep.1, 1, [d], rep.2, []⟩
    else
      let rest := reconnectLoop connectOk sendOk fuel (attempt + 1)
        { st with connected := false }
      ⟨rest.state, rest.attempts + 1, d :: rest.delays, rest.resent, rest.errors⟩

/-- Method `RealtimeClient._handle_reconnect` (lines 401-427): returns at once
when `_running` is false, else runs the 5-attempt loop. -/
def handle_reconnect (st : RtState) (connectOk : Nat → Bool) (sendOk : Nat → Bool) :
    ReconnectResult :=
  if st.running = false then ⟨st, 0, [], [], []⟩
  else reconnectLoop connectOk sendOk 5 0 st

/-- The sleep delays of attempts `attempt, attempt+1, ...` (`fuel` of
them): `5 * (attempt + j + 1)` seconds — strictly increasing. -/
def delaysFrom (attempt fuel : Nat) : List Nat :=
  (List.range fuel).map (fun j => 5 * (attempt + j + 1))

/-! ### Realtime lemmas -/

lemma mem_addSub_self (l : List String) (k : String) : k ∈ addSub l k := by
  unfold addSub
  split
  · assumption
  · simp

lemma delaysFrom_succ (attempt n : Nat) :
    delaysFrom attempt (n + 1) = 5 * (attempt + 1) :: delaysFrom (attempt + 1) n := by
  unfold delaysFrom
  rw [List.range_succ_eq_map, List.map_cons, List.map_map]
  rw [show 5 * (attempt + 0 + 1) = 5 * (attempt + 1) from by omega]
  apply congrArg
  apply List.map_congr_left
  intro a _
  simp only [Function.comp_apply]
  omega

lemma subscribe_all_ok (st : RtState) (symbol dt : String) (sendOk : Nat → Bool)
    (hconn : st.connected = true) (hs : ∀ j, sendOk j = true) :
    subscribe st symbol (some [dt]) sendOk =
      ⟨true, { st with subscriptions := addSub st.subscriptions (dt ++ ":" ++ symbol) },
       [(dt, symbol)]⟩ := by
  simp [subscribe, hconn, subscribeLoop, hs 0]

lemma replayLoop_all_ok (sendOk : Nat → Bool) (hs : ∀ j, sendOk j = true) :
    ∀ (keys : List String) (i : Nat) (st : RtState) (acc : List (String × String)),
      st.connected = true →
      (replayLoop sendOk keys i st acc).2 = acc ++ keys.map splitKey ∧
      (replayLoop sendOk keys i st acc).1.connected = true := by
  intro keys
  induction keys with
  | nil => intro i st acc hconn; exact ⟨by simp [replayLoop], hconn⟩
  | cons key rest ih =>
    intro i st acc hconn
    have hr := subscribe_all_ok st (splitKey key).2 (splitKey key).1
      (fun j => sendOk (i + j)) hconn (fun j => hs (i + j))
    simp only [replayLoop, hr]
    have hrec := ih (i + 1)
      { st with subscriptions := addSub st.subscriptions ((splitKey key).1 ++ ":" ++ (splitKey key).2) }
      (acc ++ [((splitKey key).1, (splitKey key).2)]) hconn
    refine ⟨?_, hrec.2⟩
    rw [hrec.1]
    simp

lemma reconnect_attempts_le (connectOk sendOk : Nat → Bool) :
    ∀ (fuel attempt : Nat) (st : RtState),
      (reconnectLoop connectOk sendOk fuel attempt st).attempts ≤ fuel := by
  intro fuel
  induction fuel with
  | zero => intro attempt st; simp [reconnectLoop]
  | succ fuel ih =>
    intro attempt st
    rw [reconnectLoop]
    by_cases h : connectOk attempt = true
    · rw [if_pos h]; simp
    · rw [if_neg h]
      have := ih (attempt + 1) { st with connected := false }
      simp only []
      omega

lemma reconnect_all_fail (connectOk sendOk : Nat → Bool) :
    ∀ (fuel attempt : Nat) (st : RtState),
      (∀ j, j < fuel → connectOk (attempt + j) = false) → 1 ≤ fuel →
      reconnectLoop connectOk sendOk fuel attempt st =
        ⟨{ st with connected := false }, fuel, delaysFrom attempt fuel, [],
         ["Connection lost and unable to reconnect"]⟩ := by
  intro fuel
  induction fuel with
  | zero => intro attempt st _ h; omega
  | succ fuel ih =>
    intro attempt st hfail _
    rw [reconnectLoop]
    have h0 : connectOk attempt = false := by simpa using hfail 0 (by omega)
    rw [if_neg (by simp [h0])]
    cases fuel with
    | zero => simp [reconnectLoop, delaysFrom, List.range_succ]
    | succ fuel2 =>
      have hrec := ih (attempt + 1) { st with connected := false }
        (fun j hj => by
          rw [show attempt + 1 + j = attempt + (j + 1) from by omega]
          exact hfail (j + 1) (by omega))
        (by omega)
      simp only [hrec]
      rw [delaysFrom_succ attempt (fuel2 + 1)]

lemma reconnect_success (connectOk sendOk : Nat → Bool) :
    ∀ (k fuel attempt : Nat) (st : RtState), k < fuel →
      (∀ j, j < k → connectOk (attempt + j) = false) → connectOk (attempt + k) = true →
      reconnectLoop connectOk sendOk fuel attempt st =
        ⟨(replayLoop sendOk st.subscriptions 0
            { st with connected := true, running := true } []).1,
         k + 1, delaysFrom attempt (k + 1),
         (replayLoop sendOk st.subscriptions 0
            { st with connected := true, running := true } []).2, []⟩ := by
  intro k
  induction k with
  | zero =>
    intro fuel attempt st hk _ hsucc
    cases fuel with
    | zero => omega
    | succ fuel2 =>
      rw [reconnectLoop]
      rw [if_pos (by simpa using hsucc)]
      simp [delaysFrom, List.range_succ]
  | succ k ih =>
    intro fuel attempt st hk hfail hsucc
    cases fuel with
    | zero => omega
    | succ fuel2 =>
      rw [reconnectLoop]
      have h0 : connectOk attempt = false := by simpa using hfail 0 (by omega)
      rw [if_neg (by simp [h0])]
      have hrec := ih fuel2 (attempt + 1) { st with connected := false } (by omega)
        (fun j hj => by
          rw [show attempt + 1 + j = attempt + (j + 1) from by omega]
          exact hfail (j + 1) (by omega))
        (by
          rw [show attempt + 1 + k = attempt + (k + 1) from by omega]
          exact hsucc)
      simp only [hrec]
      rw [delaysFrom_succ attempt (k + 1)]

/-! ### Claim theorems about the realtime feed -/

/-- C8: after an unplanned socket closure (with `_running` still true),
the feed makes at most 5 reconnect attempts; if every attempt fails it
makes exactly 5 attempts with the strictly increasing delays
5,10,15,20,25s, invokes the error callback once with the terminal message,
re-sends nothing, ends disconnected, and the procedure terminates — no
further attempts happen until `connect()` is called again; if attempt `k`
(`k < 5`) is the first to succeed, it makes `k+1` attempts with increasing
delays, re-sends one subscribe message per entry of the current
subscription set (in order), invokes no error callback, and ends
connected. -/
theorem reconnect_bounded_replay (st : RtState) (connectOk sendOk : Nat → Bool)
    (hrun : st.running = true) (hsend : ∀ j, sendOk j = true) :
    (handle_reconnect st connectOk sendOk).attempts ≤ 5 ∧
    ((∀ i, i < 5 → connectOk i = false) →
      handle_reconnect st connectOk sendOk =
        ⟨{ st with connected := false }, 5, [5, 10, 15, 20, 25], [],
         ["Connection lost and unable to reconnect"]⟩) ∧
    (∀ k, k < 5 → (∀ i, i < k → connectOk i = false) → connectOk k = true →
      (handle_reconnect st connectOk sendOk).attempts = k + 1 ∧
      (handle_reconnect st connectOk sendOk).resent = st.subscriptions.map splitKey ∧
      (handle_reconnect st connectOk sendOk).errors = [] ∧
      (handle_reconnect st connectOk sendOk).state.connected = true ∧
      (handle_reconnect st connectOk sendOk).delays = delaysFrom 0 (k + 1)) := by
  have hh : handle_reconnect st connectOk sendOk = reconnectLoop connectOk sendOk 5 0 st := by
    unfold handle_reconnect
    rw [hrun]
    rfl
  refine ⟨?_, ?_, ?_⟩
  · rw [hh]; exact reconnect_attempts_le connectOk sendOk 5 0 st
  · intro hfail
    rw [hh, reconnect_all_fail connectOk sendOk 5 0 st
      (fun j hj => by simpa using hfail j hj) (by omega)]
    rfl
  · intro k hk hfail hsucc
    have hs := reconnect_success connectOk sendOk k 5 0 st hk
      (fun j hj => by simpa using hfail j hj) (by simpa using hsucc)
    have hreplay := replayLoop_all_ok sendOk hsend st.subscriptions 0
      { st with connected := true, running := true } [] rfl
    rw [hh, hs]
    exact ⟨rfl, by simpa using hreplay.1, rfl, hreplay.2, rfl⟩

/-- Witness for C8: with two active subscriptions, a first-attempt
reconnect replays exactly those two subscriptions; with an always-failing
oracle, exactly 5 attempts happen and the terminal error fires. -/
theorem reconnect_bounded_replay_witness :
    (handle_reconnect ⟨false, true, ["H0STCNT0:AAPL", "H0STCNI0:AAPL"]⟩
      (fun _ => true) (fun _ => true)).attempts = 1 ∧
    (handle_reconnect ⟨false, true, ["H0STCNT0:AAPL", "H0STCNI0:AAPL"]⟩
      (fun _ => true) (fun _ => true)).resent =
      [("H0STCNT0", "AAPL"), ("H0STCNI0", "AAPL")] ∧
    (handle_reconnect ⟨false, true, ["H0STCNT0:AAPL", "H0STCNI0:AAPL"]⟩
      (fun _ => true) (fun _ => true)).state.connected = true ∧
    handle_reconnect ⟨false, true, ["H0STCNT0:AAPL", "H0STCNI0:AAPL"]⟩
      (fun _ => false) (fun _ => true) =
      ⟨⟨false, true, ["H0STCNT0:AAPL", "H0STCNI0:AAPL"]⟩, 5, [5, 10, 15, 20, 25], [],
       ["Connection lost and unable to reconnect"]⟩ := by
  have h1 := reconnect_bounded_replay ⟨false, true, ["H0STCNT0:AAPL", "H0STCNI0:AAPL"]⟩
    (fun _ => true) (fun _ => true) rfl (fun _ => rfl)
  have h2 := reconnect_bounded_replay ⟨false, true, ["H0STCNT0:AAPL", "H0STCNI0:AAPL"]⟩
    (fun _ => false) (fun _ => true) rfl (fun _ => rfl)
  have h3 := h1.2.2 0 (by omega) (fun i hi => absurd hi (Nat.not_lt_zero i)) rfl
  refine ⟨h3.1, ?_, h3.2.2.2.1, h2.2.1 (fun i _ => rfl)⟩
  rw [h3.2.1]
  rfl

/-- C10: `subscribe` is not atomic over its data-type list — when the
send for the second data type fails, it returns `false`, yet the entry
already added for the first data type stays in the subscription set (no
rollback), so a `false` return does not imply the set is unchanged. -/
theorem subscribe_no_rollback (st : RtState) (symbol dt1 dt2 : String)
    (sendOk : Nat → Bool) (hconn : st.connected = true) (h0 : sendOk 0 = true)
    (h1 : sendOk 1 = false) :
    (subscribe st symbol (some [dt1, dt2]) sendOk).ok = false ∧
    (dt1 ++ ":" ++ symbol) ∈ (subscribe st symbol (some [dt1, dt2]) sendOk).state.subscriptions ∧
    (subscribe st symbol (some [dt1, dt2]) sendOk).sent = [(dt1, symbol)] ∧
    ((dt1 ++ ":" ++ symbol) ∉ st.subscriptions →
      (subscribe st symbol (some [dt1, dt2]) sendOk).state.subscriptions ≠
        st.subscriptions) := by
  have hrun : subscribe st symbol (some [dt1, dt2]) sendOk =
      ⟨false, { st with subscriptions := addSub st.subscriptions (dt1 ++ ":" ++ symbol) },
       [(dt1, symbol)]⟩ := by
    simp [subscribe, hconn, subscribeLoop, h0, h1]
  refine ⟨by rw [hrun], ?_, by rw [hrun], ?_⟩
  · rw [hrun]
    exact mem_addSub_self st.subscriptions (dt1 ++ ":" ++ symbol)
  · intro hnot heq
    rw [hrun] at heq
    have heq2 : addSub st.subscriptions (dt1 ++ ":" ++ symbol) = st.subscriptions := heq
    have hm := mem_addSub_self st.subscriptions (dt1 ++ ":" ++ symbol)
    rw [heq2] at hm
    exact hnot hm

/-- Witness for C10: on an empty subscription set, a two-data-type
subscribe whose second send fails returns `false` but leaves the first
entry subscribed. -/
theorem subscribe_no_rollback_witness :
    (subscribe ⟨true, true, []⟩ "AAPL" (some ["H0STCNT0", "H0STCNI0"])
      (fun i => i == 0)).ok = false ∧
    ("H0STCNT0" ++ ":" ++ "AAPL") ∈ (subscribe ⟨true, true, []⟩ "AAPL"
      (some ["H0STCNT0", "H0STCNI0"]) (fun i => i == 0)).state.subscriptions ∧
    (subscribe ⟨true, true, []⟩ "AAPL" (some ["H0STCNT0", "H0STCNI0"])
      (fun i => i == 0)).state.subscriptions ≠ ([] : List String) := by
  have h := subscribe_no_rollback ⟨true, true, []⟩ "AAPL" "H0STCNT0" "H0STCNI0"
    (fun i => i == 0) rfl rfl rfl
  exact ⟨h.1, h.2.1, h.2.2.2 (by simp)⟩

end AlphaAI
